import Mathlib

/-!
Shallow embedding of
`skyrl_train/inference_engines/ray_wrapped_inference_engine.py`.

The driver function `create_ray_wrapped_inference_engines` is modelled as a
pure function from a configuration (the Python keyword arguments plus the
bits of ambient state the code reads: the installed vLLM version and the
`noset_visible_devices` flag obtained from the Ray cluster) to

  * a list of `Event`s, the cluster-visible effects the driver performs in
    order (placement-group creation, the bounded readiness wait, each remote
    actor construction, and the sleep calls plus the blocking gather), and
  * an `Except` value: either the Python exception raised (`ValueError` on an
    unsupported backend, `AssertionError` on a vLLM version mismatch) or the
    returned list of `RayWrappedInferenceEngine` facades.

The body of the `@ray.remote` task `get_sglang_engine` (which mutates and
restores `CUDA_VISIBLE_DEVICES` around the SGLang import inside its own
worker process) is modelled separately as `get_sglang_engine`, explicit in
the task-local environment value of `CUDA_VISIBLE_DEVICES`.
-/

/-- A schedulable resource bundle, e.g. `{"GPU": 1, "CPU": 1}`. -/
structure Bundle where
  gpu : ℚ
  cpu : ℚ
deriving Repr, DecidableEq

/-- A Ray placement group: the reserved bundles and the packing strategy. -/
structure PG where
  bundles : List Bundle
  strategy : String
deriving Repr, DecidableEq

/-- `PlacementGroupSchedulingStrategy(placement_group=…,
placement_group_capture_child_tasks=…, placement_group_bundle_index=…)`. -/
structure PlacementGroupSchedulingStrategy where
  placement_group : PG
  placement_group_capture_child_tasks : Bool
  placement_group_bundle_index : Nat
deriving Repr, DecidableEq

/-- Backend-agnostic generation-control options (opaque payload). -/
def SamplingParams : Type := List (String × String)

instance : DecidableEq SamplingParams := by
  unfold SamplingParams
  infer_instance

/-- Installed-package version, compared lexicographically on the release
triple as `packaging.version` does for plain `major.minor.patch` strings. -/
structure Version where
  major : Nat
  minor : Nat
  patch : Nat
deriving Repr, DecidableEq

/-- Lexicographic strict order on release triples. -/
def Version.ltBool (a b : Version) : Bool :=
  a.major < b.major ||
    (a.major == b.major &&
      (a.minor < b.minor || (a.minor == b.minor && a.patch < b.patch)))

/-- `version.parse(a) >= version.parse(b)` for release triples. -/
def Version.geBool (a b : Version) : Bool :=
  !(Version.ltBool a b)

/-- Construction parameters of a `VLLMRayActor` / `AsyncVLLMRayActor`:
the `.options(...)` resource request and the remote-constructor keyword
arguments, exactly as passed at the call site. -/
structure VllmSpec where
  actor_class : String
  opt_num_cpus : ℚ
  opt_num_gpus : ℚ
  scheduling_strategy : PlacementGroupSchedulingStrategy
  model : String
  enforce_eager : Bool
  worker_extension_cls : String
  tensor_parallel_size : Nat
  seed : Int
  distributed_executor_backend : String
  max_model_len : Nat
  enable_prefix_caching : Bool
  dtype : String
  trust_remote_code : Bool
  vllm_v1_disable_multiproc : Bool
  gpu_memory_utilization : Option ℚ
  bundle_indices : Option (List Nat)
  kwarg_num_gpus : ℚ
  enable_sleep_mode : Bool
  noset_visible_devices : Bool
  max_num_batched_tokens : Nat
  max_num_seqs : Nat
  sampling_params : Option SamplingParams
  tokenizer : Option String
  max_logprobs : Nat
deriving DecidableEq

/-- Construction parameters of an `SGLangRayActor`, exactly as passed at the
call site inside `get_sglang_engine`. -/
structure SglangSpec where
  opt_num_cpus : ℚ
  opt_num_gpus : ℚ
  scheduling_strategy : PlacementGroupSchedulingStrategy
  model_path : String
  tp_size : Nat
  mem_fraction_static : Option ℚ
  random_seed : Int
  context_length : Nat
  disable_radix_cache : Bool
  dtype : String
  trust_remote_code : Bool
  max_prefill_tokens : Nat
  max_running_requests : Nat
  mm_attention_backend : String
  attention_backend : String
  enable_memory_saver : Bool
  distributed_executor_backend : String
  noset_visible_devices : Bool
  bundle_indices : Option (List Nat)
  kwarg_num_gpus : ℚ
  sampling_params : Option SamplingParams
  tokenizer : Option String
deriving DecidableEq

/-- The remote engine actor spawned for one replica: a tagged choice between
the two backend variants. -/
inductive ActorSpec where
  | vllm (v : VllmSpec)
  | sglang (s : SglangSpec)
deriving DecidableEq

/-- The `.options(...)` `num_gpus` resource request of an engine actor. -/
def ActorSpec.opt_num_gpus : ActorSpec → ℚ
  | .vllm v => v.opt_num_gpus
  | .sglang s => s.opt_num_gpus

/-- The `.options(...)` `num_cpus` resource request of an engine actor. -/
def ActorSpec.opt_num_cpus : ActorSpec → ℚ
  | .vllm v => v.opt_num_cpus
  | .sglang s => s.opt_num_cpus

/-- The scheduling strategy an engine actor is created with. -/
def ActorSpec.scheduling_strategy : ActorSpec → PlacementGroupSchedulingStrategy
  | .vllm v => v.scheduling_strategy
  | .sglang s => s.scheduling_strategy

/-- The `bundle_indices` keyword argument an engine actor is created with. -/
def ActorSpec.bundle_indices : ActorSpec → Option (List Nat)
  | .vllm v => v.bundle_indices
  | .sglang s => s.bundle_indices

/-- The `num_gpus` keyword argument (`0.2 if use_hybrid_engine else 1`)
forwarded to the engine constructor. -/
def ActorSpec.kwarg_num_gpus : ActorSpec → ℚ
  | .vllm v => v.kwarg_num_gpus
  | .sglang s => s.kwarg_num_gpus

/-- The random seed an engine actor is created with (`seed=` for vLLM,
`random_seed=` for SGLang). -/
def ActorSpec.seedValue : ActorSpec → Int
  | .vllm v => v.seed
  | .sglang s => s.random_seed

/-- Cluster-visible effects performed by the driver, in program order. -/
inductive Event where
  | pgCreate (bundles : List Bundle) (strategy : String)
  | pgWait (timeoutSeconds : Nat)
  | actorCreate (spec : ActorSpec)
  | sleepCall (replica : Nat)
  | sleepWaitAll (count : Nat)
deriving DecidableEq

/-- Python exceptions the driver can raise before doing anything remote. -/
inductive PyErr where
  | valueError (msg : String)
  | assertionError (msg : String)
deriving Repr, DecidableEq

/-- The thin facade around a remote actor handle; its only state is the
bound remote reference (`self.inference_engine_actor`). The handle type is
a parameter: the pool-construction model instantiates it with `ActorSpec`,
the behavioural model of the facade methods with `RemoteActor`. -/
structure RayWrappedInferenceEngine (α : Type) where
  inference_engine_actor : α
deriving DecidableEq

/-- All keyword arguments of `create_ray_wrapped_inference_engines`,
plus the ambient inputs the function reads: the installed vLLM version and
the `ray_noset_visible_devices(...)` answer from the cluster. -/
structure Config where
  num_inference_engines : Nat
  tensor_parallel_size : Nat
  model_dtype : String
  pretrain : String
  seed : Int
  vllm_v1_disable_multiproc : Bool
  enable_prefix_caching : Bool
  enforce_eager : Bool
  max_model_len : Nat
  shared_pg : Option PG
  gpu_memory_utilization : Option ℚ
  inference_engine_enable_sleep : Bool
  async_engine : Bool
  max_num_batched_tokens : Nat
  max_num_seqs : Nat
  sampling_params : Option SamplingParams
  tokenizer : Option String
  backend : String
  installed_vllm_version : Version
  noset_visible_devices : Bool
deriving DecidableEq

/-- `use_hybrid_engine = shared_pg is not None`. -/
def Config.use_hybrid_engine (cfg : Config) : Bool :=
  cfg.shared_pg.isSome

/-- `num_gpus = int(tensor_parallel_size == 1)`, overridden to `0.2` when
`use_hybrid_engine and tensor_parallel_size == 1`. -/
def Config.num_gpus (cfg : Config) : ℚ :=
  if cfg.use_hybrid_engine && (cfg.tensor_parallel_size == 1) then 1 / 5
  else if cfg.tensor_parallel_size == 1 then 1 else 0

/-- `distributed_executor_backend = "uni" if tensor_parallel_size == 1 else
"ray"`. -/
def Config.distributed_executor_backend (cfg : Config) : String :=
  if cfg.tensor_parallel_size == 1 then "uni" else "ray"

/-- The bundle list requested when no shared placement group is supplied:
`[{"GPU": 1, "CPU": 1} for _ in range(num_inference_engines *
tensor_parallel_size)]`. -/
def Config.requestedBundles (cfg : Config) : List Bundle :=
  List.replicate (cfg.num_inference_engines * cfg.tensor_parallel_size) ⟨1, 1⟩

/-- The placement group in scope when the replica loop runs: the supplied
shared one, or the freshly created packed one. -/
def Config.effectivePg (cfg : Config) : PG :=
  match cfg.shared_pg with
  | some p => p
  | none => ⟨cfg.requestedBundles, "PACK"⟩

/-- The placement-group events the driver performs before the replica loop:
nothing when colocated, otherwise creation of the packed group followed by
the bounded readiness wait (`get_ray_pg_ready_with_timeout(shared_pg,
timeout=30)`). -/
def Config.pgEvents (cfg : Config) : List Event :=
  match cfg.shared_pg with
  | some _ => []
  | none => [Event.pgCreate cfg.requestedBundles "PACK", Event.pgWait 30]

/-- Per-replica `bundle_indices`: `list(range(i * tensor_parallel_size,
(i + 1) * tensor_parallel_size))` when `tensor_parallel_size > 1`, else
`None`. -/
def Config.bundleIndicesOf (cfg : Config) (i : Nat) : Option (List Nat) :=
  if cfg.tensor_parallel_size > 1 then
    some (List.range' (i * cfg.tensor_parallel_size) cfg.tensor_parallel_size)
  else
    none

/-- Per-replica scheduling strategy: the in-scope placement group, child-task
capture enabled, bundle index `i * tensor_parallel_size`. -/
def Config.schedulingStrategyOf (cfg : Config) (i : Nat) :
    PlacementGroupSchedulingStrategy :=
  { placement_group := cfg.effectivePg
    placement_group_capture_child_tasks := true
    placement_group_bundle_index := i * cfg.tensor_parallel_size }

/-- The `VLLMRayActor` / `AsyncVLLMRayActor` construction for replica `i`. -/
def Config.mkVllmSpec (cfg : Config) (i : Nat) : VllmSpec :=
  { actor_class := if cfg.async_engine then "AsyncVLLMRayActor" else "VLLMRayActor"
    opt_num_cpus := cfg.num_gpus
    opt_num_gpus := cfg.num_gpus
    scheduling_strategy := cfg.schedulingStrategyOf i
    model := cfg.pretrain
    enforce_eager := cfg.enforce_eager
    worker_extension_cls := "skyrl_train.inference_engines.vllm.vllm_engine.WorkerWrap"
    tensor_parallel_size := cfg.tensor_parallel_size
    seed := cfg.seed + i
    distributed_executor_backend := cfg.distributed_executor_backend
    max_model_len := cfg.max_model_len
    enable_prefix_caching := cfg.enable_prefix_caching
    dtype := cfg.model_dtype
    trust_remote_code := true
    vllm_v1_disable_multiproc := cfg.vllm_v1_disable_multiproc
    gpu_memory_utilization := cfg.gpu_memory_utilization
    bundle_indices := cfg.bundleIndicesOf i
    kwarg_num_gpus := if cfg.use_hybrid_engine then 1 / 5 else 1
    enable_sleep_mode := cfg.inference_engine_enable_sleep
    noset_visible_devices := cfg.noset_visible_devices
    max_num_batched_tokens := cfg.max_num_batched_tokens
    max_num_seqs := cfg.max_num_seqs
    sampling_params := cfg.sampling_params
    tokenizer := cfg.tokenizer
    max_logprobs := 1 }

/-- The `SGLangRayActor` construction for replica `i` (performed inside the
`get_sglang_engine` remote task). -/
def Config.mkSglangSpec (cfg : Config) (i : Nat) : SglangSpec :=
  { opt_num_cpus := cfg.num_gpus
    opt_num_gpus := cfg.num_gpus
    scheduling_strategy := cfg.schedulingStrategyOf i
    model_path := cfg.pretrain
    tp_size := cfg.tensor_parallel_size
    mem_fraction_static := cfg.gpu_memory_utilization
    random_seed := cfg.seed + i
    context_length := cfg.max_model_len
    disable_radix_cache := !cfg.enable_prefix_caching
    dtype := cfg.model_dtype
    trust_remote_code := true
    max_prefill_tokens := cfg.max_num_batched_tokens
    max_running_requests := cfg.max_num_seqs
    mm_attention_backend := "fa3"
    attention_backend := "fa3"
    enable_memory_saver := cfg.inference_engine_enable_sleep
    distributed_executor_backend := cfg.distributed_executor_backend
    noset_visible_devices := cfg.noset_visible_devices
    bundle_indices := cfg.bundleIndicesOf i
    kwarg_num_gpus := if cfg.use_hybrid_engine then 1 / 5 else 1
    sampling_params := cfg.sampling_params
    tokenizer := cfg.tokenizer }

/-- The engine actor spawned for replica `i`, by backend kind. -/
def Config.mkActorSpec (cfg : Config) (i : Nat) : ActorSpec :=
  if cfg.backend = "vllm" then .vllm (cfg.mkVllmSpec i)
  else .sglang (cfg.mkSglangSpec i)

/-- The actors created by the `for i in range(num_inference_engines)` loop,
in creation order (`inference_engine_actors`). -/
def Config.inference_engine_actors (cfg : Config) : List ActorSpec :=
  (List.range cfg.num_inference_engines).map cfg.mkActorSpec

/-- `engines = [RayWrappedInferenceEngine(actor_handle) for actor_handle in
inference_engine_actors]`. -/
def Config.engines (cfg : Config) : List (RayWrappedInferenceEngine ActorSpec) :=
  cfg.inference_engine_actors.map RayWrappedInferenceEngine.mk

/-- The sleep traffic after facade construction: one `sleep()` call per
engine, then one blocking `ray.get` over all the sleep refs; nothing when
`inference_engine_enable_sleep` is false. -/
def Config.sleepEvents (cfg : Config) : List Event :=
  if cfg.inference_engine_enable_sleep then
    (List.range cfg.num_inference_engines).map Event.sleepCall ++
      [Event.sleepWaitAll cfg.num_inference_engines]
  else []

/-- The full event trace of a run that passed the backend checks. -/
def Config.mainTrace (cfg : Config) : List Event :=
  cfg.pgEvents ++ cfg.inference_engine_actors.map Event.actorCreate ++
    cfg.sleepEvents

/-- `create_ray_wrapped_inference_engines`: validates the backend (raising
`ValueError` on an unknown backend string and `AssertionError` on a vLLM
older than 0.8.3, in both cases before any cluster-visible effect), then
optionally creates and awaits the packed placement group, spawns one engine
actor per replica, wraps each in a facade, and finally puts every engine to
sleep and gathers the acknowledgements when configured to. Returns the
event trace together with the Python outcome. -/
def create_ray_wrapped_inference_engines (cfg : Config) :
    List Event × Except PyErr (List (RayWrappedInferenceEngine ActorSpec)) :=
  if cfg.backend = "vllm" then
    if Version.geBool cfg.installed_vllm_version ⟨0, 8, 3⟩ then
      (cfg.mainTrace, .ok cfg.engines)
    else
      ([], .error (.assertionError "SkyRL-Train only supports vLLM >= 0.8.3"))
  else if cfg.backend = "sglang" then
    (cfg.mainTrace, .ok cfg.engines)
  else
    ([], .error (.valueError ("Unsupported backend: " ++ cfg.backend)))

/-- The actor constructions recorded in a trace, in order. -/
def createdActors (tr : List Event) : List ActorSpec :=
  tr.filterMap fun e =>
    match e with
    | .actorCreate s => some s
    | _ => none

/-- The `sleep()` calls recorded in a trace, in order. -/
def sleepCallsOf (tr : List Event) : List Nat :=
  tr.filterMap fun e =>
    match e with
    | .sleepCall i => some i
    | _ => none

/-- The backend-validation prologue succeeds: either vLLM with an installed
version at least 0.8.3, or SGLang. -/
def Config.backendOk (cfg : Config) : Bool :=
  (cfg.backend == "vllm" && Version.geBool cfg.installed_vllm_version ⟨0, 8, 3⟩) ||
    cfg.backend == "sglang"

/-- Effects performed inside the `get_sglang_engine` remote task, in order. -/
inductive TaskEvent where
  | readEnv (name : String) (value : Option String)
  | setEnv (name : String) (value : String)
  | modImport (moduleName : String)
  | actorCreate (spec : ActorSpec)
deriving DecidableEq

/-- Outcome of one `get_sglang_engine` task: its effect list, the final value
of `CUDA_VISIBLE_DEVICES` in the task process, and the engine it built. -/
structure SglangTaskResult where
  events : List TaskEvent
  finalEnv : Option String
  engine : ActorSpec
deriving DecidableEq

/-- The body of the `@ray.remote` task `get_sglang_engine` for replica `i`,
explicit in the task-local value of `CUDA_VISIBLE_DEVICES` (`env`, `none`
when unset): it reads the variable with default `""`, sets it to `"0"`,
imports the SGLang engine module, writes the read value back, and
constructs the `SGLangRayActor`. -/
def get_sglang_engine (cfg : Config) (i : Nat) (env : Option String) :
    SglangTaskResult :=
  let before_cuda_visible_devices := env.getD ""
  { events :=
      [TaskEvent.readEnv "CUDA_VISIBLE_DEVICES" env,
       TaskEvent.setEnv "CUDA_VISIBLE_DEVICES" "0",
       TaskEvent.modImport "skyrl_train.inference_engines.sglang.sglang_engine",
       TaskEvent.setEnv "CUDA_VISIBLE_DEVICES" before_cuda_visible_devices,
       TaskEvent.actorCreate (.sglang (cfg.mkSglangSpec i))]
    finalEnv := some before_cuda_visible_devices
    engine := .sglang (cfg.mkSglangSpec i) }

/-- Opaque generation-request payload crossing the facade boundary. -/
structure InferenceEngineInput where
  payload : String
deriving DecidableEq

/-- Opaque generation-response payload crossing the facade boundary. -/
structure InferenceEngineOutput where
  payload : String
deriving DecidableEq

/-- One named-tensor weight-update request (opaque at the facade boundary). -/
structure NamedWeightUpdateRequest where
  name : String
  dtype : String
  shape : List Nat
deriving DecidableEq

/-- Opaque acknowledgement / return payload of the remaining remote calls. -/
structure RemoteResp where
  payload : String
deriving DecidableEq

/-- Behavioural model of the remote engine actor behind a facade: one
response function per remote method, applied to exactly the arguments the
facade forwards. `wake_up` and `sleep` take Python `*args` and `**kwargs`. -/
structure RemoteActor where
  generate : InferenceEngineInput → InferenceEngineOutput
  wake_up : List String → List (String × String) → RemoteResp
  sleep : List String → List (String × String) → RemoteResp
  init_weight_update_communicator :
    String → Nat → Nat → Nat → String → String → Bool → RemoteResp
  update_named_weight : NamedWeightUpdateRequest → RemoteResp
  teardown : Unit → RemoteResp
  reset_prefix_cache : Unit → RemoteResp
  tp_size : Nat

/-- `generate`: awaits `self.inference_engine_actor.generate.remote(
input_batch=input_batch)`. Methods are modelled as state transformers on the
facade so that the frame condition (the facade is unchanged) is explicit. -/
def RayWrappedInferenceEngine.generate
    (self : RayWrappedInferenceEngine RemoteActor)
    (input_batch : InferenceEngineInput) :
    InferenceEngineOutput × RayWrappedInferenceEngine RemoteActor :=
  (self.inference_engine_actor.generate input_batch, self)

/-- `wake_up(*args, **kwargs)`: forwarded verbatim to the remote actor. -/
def RayWrappedInferenceEngine.wake_up
    (self : RayWrappedInferenceEngine RemoteActor)
    (args : List String) (kwargs : List (String × String)) :
    RemoteResp × RayWrappedInferenceEngine RemoteActor :=
  (self.inference_engine_actor.wake_up args kwargs, self)

/-- `sleep(*args, **kwargs)`: forwarded verbatim to the remote actor. -/
def RayWrappedInferenceEngine.sleep
    (self : RayWrappedInferenceEngine RemoteActor)
    (args : List String) (kwargs : List (String × String)) :
    RemoteResp × RayWrappedInferenceEngine RemoteActor :=
  (self.inference_engine_actor.sleep args kwargs, self)

/-- `init_weight_update_communicator(...)`: all seven arguments forwarded
positionally to the remote actor. -/
def RayWrappedInferenceEngine.init_weight_update_communicator
    (self : RayWrappedInferenceEngine RemoteActor)
    (master_addr : String) (master_port : Nat) (rank_offset : Nat)
    (world_size : Nat) (group_name : String) (backend : String)
    (override_existing : Bool) :
    RemoteResp × RayWrappedInferenceEngine RemoteActor :=
  (self.inference_engine_actor.init_weight_update_communicator master_addr
      master_port rank_offset world_size group_name backend override_existing,
    self)

/-- `update_named_weight(request)`: forwarded verbatim. -/
def RayWrappedInferenceEngine.update_named_weight
    (self : RayWrappedInferenceEngine RemoteActor)
    (request : NamedWeightUpdateRequest) :
    RemoteResp × RayWrappedInferenceEngine RemoteActor :=
  (self.inference_engine_actor.update_named_weight request, self)

/-- `teardown()`: forwarded verbatim. -/
def RayWrappedInferenceEngine.teardown
    (self : RayWrappedInferenceEngine RemoteActor) :
    RemoteResp × RayWrappedInferenceEngine RemoteActor :=
  (self.inference_engine_actor.teardown (), self)

/-- `reset_prefix_cache()`: forwarded verbatim. -/
def RayWrappedInferenceEngine.reset_prefix_cache
    (self : RayWrappedInferenceEngine RemoteActor) :
    RemoteResp × RayWrappedInferenceEngine RemoteActor :=
  (self.inference_engine_actor.reset_prefix_cache (), self)

/-- `tp_size` property: `ray.get(self.inference_engine_actor.tp_size
.remote())`. -/
def RayWrappedInferenceEngine.tp_size
    (self : RayWrappedInferenceEngine RemoteActor) :
    Nat × RayWrappedInferenceEngine RemoteActor :=
  (self.inference_engine_actor.tp_size, self)

/-! Helper lemmas about the embedded driver. -/

theorem create_eq_of_backendOk (cfg : Config) (h : cfg.backendOk = true) :
    create_ray_wrapped_inference_engines cfg = (cfg.mainTrace, .ok cfg.engines) := by
  simp only [Config.backendOk, Bool.or_eq_true, Bool.and_eq_true, beq_iff_eq] at h
  rcases h with ⟨hb, hv⟩ | hs
  · unfold create_ray_wrapped_inference_engines
    rw [if_pos hb, if_pos hv]
  · have hb : cfg.backend ≠ "vllm" := by rw [hs]; decide
    unfold create_ray_wrapped_inference_engines
    rw [if_neg hb, if_pos hs]

theorem createdActors_pgEvents (cfg : Config) :
    createdActors cfg.pgEvents = [] := by
  unfold createdActors Config.pgEvents
  cases cfg.shared_pg <;> simp

theorem createdActors_sleepEvents (cfg : Config) :
    createdActors cfg.sleepEvents = [] := by
  unfold createdActors Config.sleepEvents
  by_cases h : cfg.inference_engine_enable_sleep <;>
    simp [h, List.filterMap_map, Function.comp_def]

theorem createdActors_mainTrace (cfg : Config) :
    createdActors cfg.mainTrace = cfg.inference_engine_actors := by
  unfold Config.mainTrace
  rw [show createdActors (cfg.pgEvents ++ cfg.inference_engine_actors.map
      Event.actorCreate ++ cfg.sleepEvents) =
      createdActors cfg.pgEvents ++
        createdActors (cfg.inference_engine_actors.map Event.actorCreate) ++
        createdActors cfg.sleepEvents from by
    unfold createdActors; simp]
  rw [createdActors_pgEvents, createdActors_sleepEvents]
  unfold createdActors
  simp [List.filterMap_map, Function.comp_def]

theorem length_inference_engine_actors (cfg : Config) :
    cfg.inference_engine_actors.length = cfg.num_inference_engines := by
  unfold Config.inference_engine_actors
  simp

theorem getElem?_inference_engine_actors (cfg : Config) (i : Nat)
    (hi : i < cfg.num_inference_engines) :
    cfg.inference_engine_actors[i]? = some (cfg.mkActorSpec i) := by
  unfold Config.inference_engine_actors
  simp [List.getElem?_range hi]

theorem mkActorSpec_bundle_indices (cfg : Config) (i : Nat) :
    (cfg.mkActorSpec i).bundle_indices = cfg.bundleIndicesOf i := by
  unfold Config.mkActorSpec
  split <;> rfl

theorem mkActorSpec_scheduling_strategy (cfg : Config) (i : Nat) :
    (cfg.mkActorSpec i).scheduling_strategy = cfg.schedulingStrategyOf i := by
  unfold Config.mkActorSpec
  split <;> rfl

theorem mkActorSpec_opt_num_gpus (cfg : Config) (i : Nat) :
    (cfg.mkActorSpec i).opt_num_gpus = cfg.num_gpus := by
  unfold Config.mkActorSpec
  split <;> rfl

theorem mkActorSpec_kwarg_num_gpus (cfg : Config) (i : Nat) :
    (cfg.mkActorSpec i).kwarg_num_gpus =
      if cfg.use_hybrid_engine then 1 / 5 else 1 := by
  unfold Config.mkActorSpec
  split <;> rfl

theorem mkActorSpec_seedValue (cfg : Config) (i : Nat) :
    (cfg.mkActorSpec i).seedValue = cfg.seed + i := by
  unfold Config.mkActorSpec
  split <;> rfl

theorem pgCreate_not_mem_mainTrace_of_shared (cfg : Config) (pg : PG)
    (h : cfg.shared_pg = some pg) (b : List Bundle) (s : String) :
    Event.pgCreate b s ∉ cfg.mainTrace := by
  unfold Config.mainTrace Config.pgEvents Config.sleepEvents
  rw [h]
  by_cases hs : cfg.inference_engine_enable_sleep <;> simp [hs]

theorem sleepCallsOf_mainTrace (cfg : Config) :
    sleepCallsOf cfg.mainTrace =
      if cfg.inference_engine_enable_sleep then
        List.range cfg.num_inference_engines
      else [] := by
  unfold Config.mainTrace sleepCallsOf Config.pgEvents Config.sleepEvents
  cases cfg.shared_pg <;> by_cases hs : cfg.inference_engine_enable_sleep <;>
    simp [hs, List.filterMap_map, Function.comp_def]

theorem getLast?_mainTrace_of_sleep (cfg : Config)
    (h : cfg.inference_engine_enable_sleep = true) :
    cfg.mainTrace.getLast? =
      some (Event.sleepWaitAll cfg.num_inference_engines) := by
  unfold Config.mainTrace Config.sleepEvents
  rw [h]
  simp only [if_true]
  rw [← List.append_assoc]
  exact List.getLast?_concat _

theorem sleepWaitAll_not_mem_mainTrace (cfg : Config)
    (h : cfg.inference_engine_enable_sleep = false) (n : Nat) :
    Event.sleepWaitAll n ∉ cfg.mainTrace := by
  unfold Config.mainTrace Config.pgEvents Config.sleepEvents
  rw [h]
  cases cfg.shared_pg <;> simp

theorem mem_range'_iff (s n j : Nat) :
    j ∈ List.range' s n ↔ s ≤ j ∧ j < s + n := by
  rw [List.mem_range']
  constructor
  · rintro ⟨k, hk, rfl⟩
    omega
  · rintro ⟨h1, h2⟩
    exact ⟨j - s, by omega, by omega⟩

/-- Claim C1: for every valid backend and every `num_inference_engines = N`,
`create_ray_wrapped_inference_engines` returns a list of exactly N
`RayWrappedInferenceEngine` facades, in creation order: the returned list is
the creation-ordered actor list wrapped elementwise, so the facade at index
`i` wraps the `i`-th created engine actor. -/
theorem claim_C1_pool_size_and_order (cfg : Config)
    (h : cfg.backendOk = true) :
    ∃ engines,
      (create_ray_wrapped_inference_engines cfg).2 = .ok engines ∧
      engines.length = cfg.num_inference_engines ∧
      engines =
        (createdActors (create_ray_wrapped_inference_engines cfg).1).map
          RayWrappedInferenceEngine.mk := by
  rw [create_eq_of_backendOk cfg h]
  refine ⟨cfg.engines, rfl, ?_, ?_⟩
  · unfold Config.engines
    rw [List.length_map, length_inference_engine_actors]
  · rw [createdActors_mainTrace]
    rfl

/-- Claim C2: for `tensor_parallel_size = T > 1`, replica `i` is constructed
with `bundle_indices` exactly the contiguous range `[i*T, (i+1)*T)`, and its
placement-group scheduling strategy uses bundle index `i*T` with child-task
capture enabled. -/
theorem claim_C2_contiguous_bundle_slices (cfg : Config)
    (h : cfg.backendOk = true) (hT : 1 < cfg.tensor_parallel_size) (i : Nat)
    (hi : i < cfg.num_inference_engines) :
    ∃ spec,
      (createdActors (create_ray_wrapped_inference_engines cfg).1)[i]? =
        some spec ∧
      spec.bundle_indices =
        some (List.range' (i * cfg.tensor_parallel_size)
          cfg.tensor_parallel_size) ∧
      (∀ j, j ∈ List.range' (i * cfg.tensor_parallel_size)
          cfg.tensor_parallel_size ↔
        i * cfg.tensor_parallel_size ≤ j ∧
          j < (i + 1) * cfg.tensor_parallel_size) ∧
      spec.scheduling_strategy.placement_group_bundle_index =
        i * cfg.tensor_parallel_size ∧
      spec.scheduling_strategy.placement_group_capture_child_tasks = true := by
  rw [create_eq_of_backendOk cfg h]
  refine ⟨cfg.mkActorSpec i, ?_, ?_, ?_, ?_, ?_⟩
  · rw [createdActors_mainTrace]
    exact getElem?_inference_engine_actors cfg i hi
  · rw [mkActorSpec_bundle_indices]
    unfold Config.bundleIndicesOf
    rw [if_pos hT]
  · intro j
    rw [mem_range'_iff, Nat.succ_mul]
  · rw [mkActorSpec_scheduling_strategy]
    rfl
  · rw [mkActorSpec_scheduling_strategy]
    rfl

/-- Claim C3: when a shared placement group is supplied and
`tensor_parallel_size == 1`, no new placement group is created and every
engine actor is scheduled with a fractional GPU share of exactly 0.2 (both
in its `.options` resource request and in the `num_gpus` argument forwarded
to the engine constructor), for every replica and both backends. -/
theorem claim_C3_colocated_fractional_gpu (cfg : Config) (pg : PG)
    (hpg : cfg.shared_pg = some pg) (hT : cfg.tensor_parallel_size = 1) :
    (∀ b s, Event.pgCreate b s ∉
        (create_ray_wrapped_inference_engines cfg).1) ∧
    ∀ spec ∈ createdActors (create_ray_wrapped_inference_engines cfg).1,
      spec.opt_num_gpus = 1 / 5 ∧ spec.kwarg_num_gpus = 1 / 5 := by
  have key : (create_ray_wrapped_inference_engines cfg).1 = cfg.mainTrace ∨
      (create_ray_wrapped_inference_engines cfg).1 = [] := by
    unfold create_ray_wrapped_inference_engines
    by_cases hb : cfg.backend = "vllm"
    · by_cases hv :
          Version.geBool cfg.installed_vllm_version ⟨0, 8, 3⟩ = true
      · left
        rw [if_pos hb, if_pos hv]
      · right
        rw [if_pos hb, if_neg hv]
    · by_cases hs : cfg.backend = "sglang"
      · left
        rw [if_neg hb, if_pos hs]
      · right
        rw [if_neg hb, if_neg hs]
  have hhyb : cfg.use_hybrid_engine = true := by
    unfold Config.use_hybrid_engine
    rw [hpg]
    rfl
  rcases key with key | key <;> rw [key]
  · refine ⟨fun b s => pgCreate_not_mem_mainTrace_of_shared cfg pg hpg b s,
      fun spec hspec => ?_⟩
    rw [createdActors_mainTrace] at hspec
    unfold Config.inference_engine_actors at hspec
    rcases List.mem_map.mp hspec with ⟨i, _, rfl⟩
    constructor
    · rw [mkActorSpec_opt_num_gpus]
      unfold Config.num_gpus
      rw [hhyb, hT]
      rfl
    · rw [mkActorSpec_kwarg_num_gpus, hhyb]
      rfl
  · exact ⟨fun b s => List.not_mem_nil _,
      fun spec hspec => absurd hspec (List.not_mem_nil _)⟩

/-- Claim C4: when no shared placement group is supplied, the driver first
requests one placement group of exactly
`num_inference_engines * tensor_parallel_size` bundles, each `{GPU: 1,
CPU: 1}`, with the PACK strategy, and then waits for its readiness with a
30-second timeout — both before any engine actor is created (the two
placement-group events open the trace). -/
theorem claim_C4_packed_pg_request (cfg : Config) (h : cfg.backendOk = true)
    (hpg : cfg.shared_pg = none) :
    ∃ rest,
      (create_ray_wrapped_inference_engines cfg).1 =
        Event.pgCreate
            (List.replicate
              (cfg.num_inference_engines * cfg.tensor_parallel_size) ⟨1, 1⟩)
            "PACK" ::
          Event.pgWait 30 :: rest := by
  rw [create_eq_of_backendOk cfg h]
  unfold Config.mainTrace Config.pgEvents
  rw [hpg]
  exact ⟨_, rfl⟩

/-- Claim C5: when `inference_engine_enable_sleep` is true, the driver issues
one `sleep()` per replica (replicas `0, …, N-1`, all N of them) and the very
last driver action before returning is the blocking gather of all N sleep
acknowledgements; when it is false, no sleep call and no gather happen. -/
theorem claim_C5_sleep_on_creation (cfg : Config) (h : cfg.backendOk = true) :
    (cfg.inference_engine_enable_sleep = true →
      sleepCallsOf (create_ray_wrapped_inference_engines cfg).1 =
        List.range cfg.num_inference_engines ∧
      ((create_ray_wrapped_inference_engines cfg).1).getLast? =
        some (Event.sleepWaitAll cfg.num_inference_engines)) ∧
    (cfg.inference_engine_enable_sleep = false →
      sleepCallsOf (create_ray_wrapped_inference_engines cfg).1 = [] ∧
      ∀ n, Event.sleepWaitAll n ∉
        (create_ray_wrapped_inference_engines cfg).1) := by
  rw [create_eq_of_backendOk cfg h]
  constructor
  · intro hs
    refine ⟨?_, getLast?_mainTrace_of_sleep cfg hs⟩
    rw [sleepCallsOf_mainTrace, if_pos hs]
  · intro hs
    refine ⟨?_, sleepWaitAll_not_mem_mainTrace cfg hs⟩
    rw [sleepCallsOf_mainTrace]
    simp [hs]

/-- Claim C6: for every backend string other than `"vllm"` and `"sglang"`,
the driver raises `ValueError` naming the backend, with an empty effect
trace: no placement group is created and no remote engine process is
spawned. -/
theorem claim_C6_unsupported_backend (cfg : Config)
    (h1 : cfg.backend ≠ "vllm") (h2 : cfg.backend ≠ "sglang") :
    create_ray_wrapped_inference_engines cfg =
      ([], .error (.valueError ("Unsupported backend: " ++ cfg.backend))) := by
  unfold create_ray_wrapped_inference_engines
  rw [if_neg h1, if_neg h2]

/-- Claim C7: for backend `"vllm"` with an installed vLLM version below
0.8.3, the driver fails with the version `AssertionError`, with an empty
effect trace: no placement group is created and no remote engine process is
spawned. -/
theorem claim_C7_vllm_version_gate (cfg : Config)
    (hb : cfg.backend = "vllm")
    (hv : Version.ltBool cfg.installed_vllm_version ⟨0, 8, 3⟩ = true) :
    create_ray_wrapped_inference_engines cfg =
      ([], .error
        (.assertionError "SkyRL-Train only supports vLLM >= 0.8.3")) := by
  have hge : ¬ Version.geBool cfg.installed_vllm_version ⟨0, 8, 3⟩ = true := by
    unfold Version.geBool
    rw [hv]
    decide
  unfold create_ray_wrapped_inference_engines
  rw [if_pos hb, if_neg hge]

/-- Claim C10: for both backends, replica `i` is constructed with random
seed `seed + i`, so in any pool no two replicas share a seed. -/
theorem claim_C10_per_replica_seed (cfg : Config) (h : cfg.backendOk = true) :
    (∀ i, i < cfg.num_inference_engines →
      ∃ spec,
        (createdActors (create_ray_wrapped_inference_engines cfg).1)[i]? =
          some spec ∧
        spec.seedValue = cfg.seed + i) ∧
    (∀ i j, i < cfg.num_inference_engines → j < cfg.num_inference_engines →
      i ≠ j → ∀ si sj,
        (createdActors (create_ray_wrapped_inference_engines cfg).1)[i]? =
          some si →
        (createdActors (create_ray_wrapped_inference_engines cfg).1)[j]? =
          some sj →
        si.seedValue ≠ sj.seedValue) := by
  rw [create_eq_of_backendOk cfg h]
  constructor
  · intro i hi
    refine ⟨cfg.mkActorSpec i, ?_, mkActorSpec_seedValue cfg i⟩
    rw [createdActors_mainTrace]
    exact getElem?_inference_engine_actors cfg i hi
  · intro i j hi hj hij si sj hsi hsj
    rw [createdActors_mainTrace, getElem?_inference_engine_actors cfg i hi]
      at hsi
    rw [createdActors_mainTrace, getElem?_inference_engine_actors cfg j hj]
      at hsj
    have hsi' := Option.some.inj hsi
    have hsj' := Option.some.inj hsj
    rw [← hsi', ← hsj', mkActorSpec_seedValue, mkActorSpec_seedValue]
    intro hEq
    omega

/-- Claim C8 counterexample: with `CUDA_VISIBLE_DEVICES` initially unset
(`none`) in the task process, after `get_sglang_engine` runs the variable is
set (to `some ""`), not restored to unset — so it is not restored to its
prior value. -/
theorem claim_C8_counterexample :
    (get_sglang_engine
        { num_inference_engines := 1
          tensor_parallel_size := 1
          model_dtype := "bfloat16"
          pretrain := "test-model"
          seed := 0
          vllm_v1_disable_multiproc := true
          enable_prefix_caching := true
          enforce_eager := false
          max_model_len := 1024
          shared_pg := none
          gpu_memory_utilization := none
          inference_engine_enable_sleep := false
          async_engine := false
          max_num_batched_tokens := 8192
          max_num_seqs := 1024
          sampling_params := none
          tokenizer := none
          backend := "sglang"
          installed_vllm_version := ⟨0, 8, 3⟩
          noset_visible_devices := false }
        0 none).finalEnv ≠ none := by
  rw [show (get_sglang_engine _ 0 none).finalEnv = some "" from rfl]
  exact Option.some_ne_none ""

/-- Claim C8 (amended): for every replica, the `get_sglang_engine` task sets
`CUDA_VISIBLE_DEVICES` to `"0"` before importing the SGLang engine module
and immediately after the import writes back the value it read beforehand —
the prior value when the variable was set, the empty string when it was
unset (so an initially unset variable ends up set to `""` rather than
restored to unset). -/
theorem claim_C8_amended_env_toggle (cfg : Config) (i : Nat)
    (env : Option String) :
    (get_sglang_engine cfg i env).events =
      [TaskEvent.readEnv "CUDA_VISIBLE_DEVICES" env,
       TaskEvent.setEnv "CUDA_VISIBLE_DEVICES" "0",
       TaskEvent.modImport
         "skyrl_train.inference_engines.sglang.sglang_engine",
       TaskEvent.setEnv "CUDA_VISIBLE_DEVICES" (env.getD ""),
       TaskEvent.actorCreate (.sglang (cfg.mkSglangSpec i))] ∧
    (get_sglang_engine cfg i env).finalEnv = some (env.getD "") :=
  ⟨rfl, rfl⟩

/-- Claim C9: `RayWrappedInferenceEngine` is a pure delegator — each of its
operations forwards to the bound remote actor with the same arguments and
returns its result unmodified, and leaves the facade (whose only state is
the remote actor reference) unchanged. -/
theorem claim_C9_pure_delegator (a : RemoteActor)
    (input_batch : InferenceEngineInput) (args : List String)
    (kwargs : List (String × String)) (master_addr : String)
    (master_port rank_offset world_size : Nat)
    (group_name backend : String) (override_existing : Bool)
    (request : NamedWeightUpdateRequest) :
    let self : RayWrappedInferenceEngine RemoteActor := ⟨a⟩
    self.generate input_batch = (a.generate input_batch, self) ∧
    self.wake_up args kwargs = (a.wake_up args kwargs, self) ∧
    self.sleep args kwargs = (a.sleep args kwargs, self) ∧
    self.init_weight_update_communicator master_addr master_port rank_offset
        world_size group_name backend override_existing =
      (a.init_weight_update_communicator master_addr master_port rank_offset
        world_size group_name backend override_existing, self) ∧
    self.update_named_weight request = (a.update_named_weight request, self) ∧
    self.teardown = (a.teardown (), self) ∧
    self.reset_prefix_cache = (a.reset_prefix_cache (), self) ∧
    self.tp_size = (a.tp_size, self) :=
  ⟨rfl, rfl, rfl, rfl, rfl, rfl, rfl, rfl⟩

/-! Concrete configurations used by the witnesses. -/

/-- Two vLLM replicas of tensor-parallel degree 2, no colocation, sleep on
creation, installed vLLM 0.8.5. -/
def cfgTwoByTwo : Config :=
  { num_inference_engines := 2
    tensor_parallel_size := 2
    model_dtype := "bfloat16"
    pretrain := "test-model"
    seed := 42
    vllm_v1_disable_multiproc := true
    enable_prefix_caching := true
    enforce_eager := false
    max_model_len := 2048
    shared_pg := none
    gpu_memory_utilization := some (4 / 5)
    inference_engine_enable_sleep := true
    async_engine := false
    max_num_batched_tokens := 8192
    max_num_seqs := 1024
    sampling_params := none
    tokenizer := none
    backend := "vllm"
    installed_vllm_version := ⟨0, 8, 5⟩
    noset_visible_devices := false }

/-- The shared placement group supplied in the colocated witness. -/
def pgShared : PG :=
  ⟨List.replicate 2 ⟨1, 1⟩, "PACK"⟩

/-- Two SGLang replicas of tensor-parallel degree 1 colocated on a supplied
shared placement group. -/
def cfgHybrid : Config :=
  { cfgTwoByTwo with
      tensor_parallel_size := 1
      shared_pg := some pgShared
      inference_engine_enable_sleep := false
      backend := "sglang" }

/-- A configuration naming an unsupported backend. -/
def cfgBadBackend : Config :=
  { cfgTwoByTwo with backend := "trtllm" }

/-- A vLLM configuration with an installed vLLM below 0.8.3. -/
def cfgOldVllm : Config :=
  { cfgTwoByTwo with installed_vllm_version := ⟨0, 8, 2⟩ }

/-- Witness for C1 at the concrete two-replica vLLM configuration. -/
theorem claim_C1_witness :
    cfgTwoByTwo.backendOk = true ∧
    ∃ engines,
      (create_ray_wrapped_inference_engines cfgTwoByTwo).2 = .ok engines ∧
      engines.length = cfgTwoByTwo.num_inference_engines ∧
      engines =
        (createdActors
          (create_ray_wrapped_inference_engines cfgTwoByTwo).1).map
          RayWrappedInferenceEngine.mk :=
  ⟨by decide, claim_C1_pool_size_and_order cfgTwoByTwo (by decide)⟩

/-- Witness for C2 at `num_inference_engines = 2, tensor_parallel_size = 2`:
replica 0 gets bundle indices `[0, 1]`, replica 1 gets `[2, 3]`. -/
theorem claim_C2_witness :
    cfgTwoByTwo.backendOk = true ∧
    1 < cfgTwoByTwo.tensor_parallel_size ∧
    0 < cfgTwoByTwo.num_inference_engines ∧
    1 < cfgTwoByTwo.num_inference_engines ∧
    List.range' (0 * cfgTwoByTwo.tensor_parallel_size)
      cfgTwoByTwo.tensor_parallel_size = [0, 1] ∧
    List.range' (1 * cfgTwoByTwo.tensor_parallel_size)
      cfgTwoByTwo.tensor_parallel_size = [2, 3] ∧
    (∃ spec,
      (createdActors
        (create_ray_wrapped_inference_engines cfgTwoByTwo).1)[0]? =
          some spec ∧
      spec.bundle_indices =
        some (List.range' (0 * cfgTwoByTwo.tensor_parallel_size)
          cfgTwoByTwo.tensor_parallel_size) ∧
      (∀ j, j ∈ List.range' (0 * cfgTwoByTwo.tensor_parallel_size)
          cfgTwoByTwo.tensor_parallel_size ↔
        0 * cfgTwoByTwo.tensor_parallel_size ≤ j ∧
          j < (0 + 1) * cfgTwoByTwo.tensor_parallel_size) ∧
      spec.scheduling_strategy.placement_group_bundle_index =
        0 * cfgTwoByTwo.tensor_parallel_size ∧
      spec.scheduling_strategy.placement_group_capture_child_tasks = true) ∧
    (∃ spec,
      (createdActors
        (create_ray_wrapped_inference_engines cfgTwoByTwo).1)[1]? =
          some spec ∧
      spec.bundle_indices =
        some (List.range' (1 * cfgTwoByTwo.tensor_parallel_size)
          cfgTwoByTwo.tensor_parallel_size) ∧
      (∀ j, j ∈ List.range' (1 * cfgTwoByTwo.tensor_parallel_size)
          cfgTwoByTwo.tensor_parallel_size ↔
        1 * cfgTwoByTwo.tensor_parallel_size ≤ j ∧
          j < (1 + 1) * cfgTwoByTwo.tensor_parallel_size) ∧
      spec.scheduling_strategy.placement_group_bundle_index =
        1 * cfgTwoByTwo.tensor_parallel_size ∧
      spec.scheduling_strategy.placement_group_capture_child_tasks = true) :=
  ⟨by decide, by decide, by decide, by decide, by decide, by decide,
    claim_C2_contiguous_bundle_slices cfgTwoByTwo (by decide) (by decide) 0
      (by decide),
    claim_C2_contiguous_bundle_slices cfgTwoByTwo (by decide) (by decide) 1
      (by decide)⟩

/-- Witness for C3 at the concrete colocated SGLang configuration. -/
theorem claim_C3_witness :
    cfgHybrid.shared_pg = some pgShared ∧
    cfgHybrid.tensor_parallel_size = 1 ∧
    ((∀ b s, Event.pgCreate b s ∉
        (create_ray_wrapped_inference_engines cfgHybrid).1) ∧
      ∀ spec ∈ createdActors
          (create_ray_wrapped_inference_engines cfgHybrid).1,
        spec.opt_num_gpus = 1 / 5 ∧ spec.kwarg_num_gpus = 1 / 5) :=
  ⟨rfl, rfl, claim_C3_colocated_fractional_gpu cfgHybrid pgShared rfl rfl⟩

/-- Witness for C4 at the concrete two-replica vLLM configuration: a
four-bundle packed placement group is requested and awaited first. -/
theorem claim_C4_witness :
    cfgTwoByTwo.backendOk = true ∧
    cfgTwoByTwo.shared_pg = none ∧
    ∃ rest,
      (create_ray_wrapped_inference_engines cfgTwoByTwo).1 =
        Event.pgCreate
            (List.replicate
              (cfgTwoByTwo.num_inference_engines *
                cfgTwoByTwo.tensor_parallel_size) ⟨1, 1⟩)
            "PACK" ::
          Event.pgWait 30 :: rest :=
  ⟨by decide, rfl, claim_C4_packed_pg_request cfgTwoByTwo (by decide) rfl⟩

/-- Witness for C5 at the concrete two-replica vLLM configuration with
sleep-on-creation enabled. -/
theorem claim_C5_witness :
    cfgTwoByTwo.backendOk = true ∧
    ((cfgTwoByTwo.inference_engine_enable_sleep = true →
      sleepCallsOf (create_ray_wrapped_inference_engines cfgTwoByTwo).1 =
        List.range cfgTwoByTwo.num_inference_engines ∧
      ((create_ray_wrapped_inference_engines cfgTwoByTwo).1).getLast? =
        some (Event.sleepWaitAll cfgTwoByTwo.num_inference_engines)) ∧
    (cfgTwoByTwo.inference_engine_enable_sleep = false →
      sleepCallsOf (create_ray_wrapped_inference_engines cfgTwoByTwo).1 =
        [] ∧
      ∀ n, Event.sleepWaitAll n ∉
        (create_ray_wrapped_inference_engines cfgTwoByTwo).1)) :=
  ⟨by decide, claim_C5_sleep_on_creation cfgTwoByTwo (by decide)⟩

/-- Witness for C6 at an unsupported backend name. -/
theorem claim_C6_witness :
    cfgBadBackend.backend ≠ "vllm" ∧
    cfgBadBackend.backend ≠ "sglang" ∧
    create_ray_wrapped_inference_engines cfgBadBackend =
      ([], .error
        (.valueError ("Unsupported backend: " ++ cfgBadBackend.backend))) :=
  ⟨by decide, by decide,
    claim_C6_unsupported_backend cfgBadBackend (by decide) (by decide)⟩

/-- Witness for C7 at installed vLLM 0.8.2. -/
theorem claim_C7_witness :
    cfgOldVllm.backend = "vllm" ∧
    Version.ltBool cfgOldVllm.installed_vllm_version ⟨0, 8, 3⟩ = true ∧
    create_ray_wrapped_inference_engines cfgOldVllm =
      ([], .error
        (.assertionError "SkyRL-Train only supports vLLM >= 0.8.3")) :=
  ⟨rfl, by decide,
    claim_C7_vllm_version_gate cfgOldVllm rfl (by decide)⟩

/-- Witness for C10 at the concrete two-replica vLLM configuration. -/
theorem claim_C10_witness :
    cfgTwoByTwo.backendOk = true ∧
    ((∀ i, i < cfgTwoByTwo.num_inference_engines →
      ∃ spec,
        (createdActors
          (create_ray_wrapped_inference_engines cfgTwoByTwo).1)[i]? =
            some spec ∧
        spec.seedValue = cfgTwoByTwo.seed + i) ∧
    (∀ i j, i < cfgTwoByTwo.num_inference_engines →
      j < cfgTwoByTwo.num_inference_engines →
      i ≠ j → ∀ si sj,
        (createdActors
          (create_ray_wrapped_inference_engines cfgTwoByTwo).1)[i]? =
            some si →
        (createdActors
          (create_ray_wrapped_inference_engines cfgTwoByTwo).1)[j]? =
            some sj →
        si.seedValue ≠ sj.seedValue)) :=
  ⟨by decide, claim_C10_per_replica_seed cfgTwoByTwo (by decide)⟩
